import Mathlib

/-!
Verification of the scrapligo transport core (package `transport`,
`src/transport/base.go`): the timeout guard `transportTimeout`, the
`System` pty transport with its command builder `buildOpenCmd`, the
session lifecycle (`Open`, `OpenNetconf`, `Close`, `IsAlive`) and the
read path (`read`, `Read`, `ReadN`).

Modelling conventions:
- Go byte slices are `Option (List Nat)`: `none` models a nil slice and
  `some l` a non-nil slice with contents `l` (Go distinguishes the two).
- Go `error` values are `Option GoError`, `none` being a nil error; the
  package sentinels are constructors of `GoError`, raw OS/io errors
  (end-of-stream included) are the `eof` / `osError` constructors.
- `time.Duration` is an `Int` counting nanoseconds.
- The goroutine/select race inside `transportTimeout` is made explicit:
  the timer fires at `max d 0` (Go timers with a non-positive duration
  fire immediately), the worker's result is ready at time `t`, and the
  `select` takes whichever channel is ready first; when both are ready
  at the same instant the Go runtime picks a branch pseudo-randomly,
  modelled by the oracle `tie`.
- External effects (the pty spawn, the underlying file read/close) are
  passed in as explicit outcome parameters.
-/

namespace Scrapligo

/-- Go `error` values seen by this package: the four sentinel errors it
declares, plus raw errors coming from the OS / io layer. -/
inductive GoError where
  | ErrTransportFailure
  | ErrUnknownTransport
  | ErrTransportTimeout
  | ErrKeyVerificationFailed
  | eof
  | osError (code : Nat)
  deriving DecidableEq

/-- `transportResult` struct: payload bytes plus error, carried from the
worker back across the timeout-guard boundary. -/
structure transportResult where
  result : Option (List Nat)
  error : Option GoError
  deriving DecidableEq

/-- `ReadSize` constant: default read chunk size. -/
def ReadSize : Nat := 65535

/-- Whether the worker's send is taken by the `select` before the timer:
the timer fires at `max d 0`, the worker's result is ready at `t`; a tie
(both channels ready) is decided by the scheduling oracle `tie`. -/
def workerWins (d t : Int) (tie : Bool) : Bool :=
  decide (t < max d 0) || (decide (t = max d 0) && tie)

/-- `transportTimeout`: run the worker `f` on its own goroutine and race
its (buffered) channel send, ready at time `t`, against a fresh timer of
duration `d`; return the worker's payload/error unwrapped if its branch
is selected, and `(make([]byte,0), ErrTransportTimeout)` otherwise. -/
def transportTimeout (d t : Int) (tie : Bool) (f : Unit → transportResult) :
    Option (List Nat) × Option GoError :=
  if workerWins d t tie then
    ((f ()).result, (f ()).error)
  else
    (some [], some GoError.ErrTransportTimeout)

/-- `BaseTransportArgs` struct (timeouts in nanoseconds, as Go
`time.Duration`; the pty size fields are those `Open` reads). -/
structure BaseTransportArgs where
  Host : String
  Port : Int
  AuthUsername : String
  TimeoutSocket : Int
  TimeoutTransport : Int
  PtyHeight : Int
  PtyWidth : Int
  deriving DecidableEq

/-- `SystemTransportArgs` struct. -/
structure SystemTransportArgs where
  AuthPrivateKey : String
  AuthStrictKey : Bool
  SSHConfigFile : String
  SSHKnownHostsFile : String
  deriving DecidableEq

/-- Go `int(d.Seconds())`: the duration in whole seconds, truncated
toward zero (exact for the nanosecond ranges used here). -/
def durationSeconds (d : Int) : Int :=
  Int.tdiv d 1000000000

/-- `System` struct. `fileObj` is the session handle (`none` models a
nil `*os.File`); `OpenCmd` is the argument vector (`none` models a nil
slice); `ExecCmd` is the spawned program identifier. Handles are
abstracted as `Nat` identifiers. -/
structure System where
  BaseTransportArgs : BaseTransportArgs
  SystemTransportArgs : SystemTransportArgs
  fileObj : Option Nat
  OpenCmd : Option (List String)
  ExecCmd : String
  deriving DecidableEq

/-- A `System` as Go composite-literal construction produces it: the
unexported `fileObj` is necessarily its zero value nil, while the
exported `OpenCmd` / `ExecCmd` may be preset by the caller. -/
def mkSystem (b : BaseTransportArgs) (s : SystemTransportArgs)
    (cmd : Option (List String)) (execCmd : String) : System :=
  { BaseTransportArgs := b
    SystemTransportArgs := s
    fileObj := none
    OpenCmd := cmd
    ExecCmd := execCmd }

/-- `buildOpenCmd` as a function of the argument structs and the current
vector contents: the Go method only ever appends to `t.OpenCmd`. -/
def buildOpenCmd (b : BaseTransportArgs) (s : SystemTransportArgs)
    (cmd0 : List String) : List String :=
  let cmd := cmd0 ++
    [b.Host, "-p", toString b.Port,
     "-o", "ConnectTimeout=" ++ toString (durationSeconds b.TimeoutSocket),
     "-o", "ServerAliveInterval=" ++ toString (durationSeconds b.TimeoutTransport)]
  let cmd := if s.AuthPrivateKey ≠ "" then cmd ++ ["-i", s.AuthPrivateKey] else cmd
  let cmd := if b.AuthUsername ≠ "" then cmd ++ ["-l", b.AuthUsername] else cmd
  let cmd :=
    if !s.AuthStrictKey then
      cmd ++ ["-o", "StrictHostKeyChecking=no", "-o", "UserKnownHostsFile=/dev/null"]
    else
      let cmd := cmd ++ ["-o", "StrictHostKeyChecking=yes"]
      if s.SSHKnownHostsFile ≠ "" then
        cmd ++ ["-o", "UserKnownHostsFile=" ++ s.SSHKnownHostsFile]
      else cmd
  if s.SSHConfigFile ≠ "" then cmd ++ ["-F", s.SSHConfigFile]
  else cmd ++ ["-F", "/dev/null"]

/-- The program identifier and argument vector handed to `exec.Command`
by an open call. -/
structure SpawnCall where
  prog : String
  args : List String
  deriving DecidableEq

/-- `Open`: build the argument vector only when it is nil, default the
program identifier to "ssh", spawn on a sized pty. `spawnResult` is the
outcome of `pty.StartWithSize`; on spawn failure the error is returned
unchanged and `fileObj` is not assigned. Returns the updated receiver,
the spawn invocation, and the error returned to the caller. -/
def System.Open (t : System) (spawnResult : Except GoError Nat) :
    System × SpawnCall × Option GoError :=
  let t :=
    if t.OpenCmd = none then
      let built := buildOpenCmd t.BaseTransportArgs t.SystemTransportArgs []
      { t with OpenCmd := some built }
    else t
  let t := if t.ExecCmd = "" then { t with ExecCmd := "ssh" } else t
  let call : SpawnCall := ⟨t.ExecCmd, t.OpenCmd.getD []⟩
  match spawnResult with
  | Except.error e => (t, call, some e)
  | Except.ok h => ({ t with fileObj := some h }, call, none)

/-- `OpenNetconf`: call `buildOpenCmd` unconditionally (it appends to
the vector already present), append the trailing "-tt" "-s" "netconf"
tokens, and spawn via `exec.Command("ssh", ...)` / `pty.Start`. -/
def System.OpenNetconf (t : System) (spawnResult : Except GoError Nat) :
    System × SpawnCall × Option GoError :=
  let newCmd :=
    buildOpenCmd t.BaseTransportArgs t.SystemTransportArgs (t.OpenCmd.getD [])
      ++ ["-tt", "-s", "netconf"]
  let t := { t with OpenCmd := some newCmd }
  let call : SpawnCall := ⟨"ssh", newCmd⟩
  match spawnResult with
  | Except.error e => (t, call, some e)
  | Except.ok h => ({ t with fileObj := some h }, call, none)

/-- `Close`: close the file object (outcome `closeResult` supplied by
the OS layer), null the handle unconditionally, return the close error. -/
def System.Close (t : System) (closeResult : Option GoError) :
    System × Option GoError :=
  ({ t with fileObj := none }, closeResult)

/-- `IsAlive`: true iff the session handle is non-nil. -/
def System.IsAlive (t : System) : Bool :=
  t.fileObj.isSome

/-- Outcome of the underlying `t.fileObj.Read(b)` call: an error
(end-of-stream included), or the byte sequence actually written into the
buffer's prefix (its length is the discarded byte count). -/
inductive ReadOutcome where
  | err (e : GoError)
  | ok (data : List Nat)
  deriving DecidableEq

/-- The buffer `make([]byte, n)` after the OS read wrote `data` into its
prefix: the data (truncated to the buffer) followed by the untouched
zero bytes. -/
def fillBuffer (n : Nat) (data : List Nat) : List Nat :=
  data.take n ++ List.replicate (n - data.length) 0

/-- `read` worker: allocate an `n`-byte buffer, read into it, discard
the byte count; any underlying error is replaced by a nil payload and
`ErrTransportFailure`, otherwise the whole buffer is the payload. -/
def System.read (n : Nat) (outcome : ReadOutcome) : transportResult :=
  match outcome with
  | ReadOutcome.err _ =>
      { result := none, error := some GoError.ErrTransportFailure }
  | ReadOutcome.ok data =>
      { result := some (fillBuffer n data), error := none }

/-- `ReadN`: the `read` worker for `n` bytes run under the timeout guard
with the transport timeout. `t'` and `tie` locate the worker in the
select race as in `transportTimeout`. -/
def System.ReadN (t : System) (n : Nat) (t' : Int) (tie : Bool)
    (outcome : ReadOutcome) : Option (List Nat) × Option GoError :=
  transportTimeout t.BaseTransportArgs.TimeoutTransport t' tie
    (fun _ => System.read n outcome)

/-- `Read`: the `read` worker for `ReadSize` bytes under the timeout
guard with the transport timeout. -/
def System.Read (t : System) (t' : Int) (tie : Bool)
    (outcome : ReadOutcome) : Option (List Nat) × Option GoError :=
  transportTimeout t.BaseTransportArgs.TimeoutTransport t' tie
    (fun _ => System.read ReadSize outcome)

/-- Sample connection parameters used by concrete witnesses. -/
def sampleBase : BaseTransportArgs :=
  { Host := "10.0.0.1"
    Port := 22
    AuthUsername := "admin"
    TimeoutSocket := 5000000000
    TimeoutTransport := 30000000000
    PtyHeight := 80
    PtyWidth := 256 }

/-- Sample process-transport parameters used by concrete witnesses. -/
def sampleSystemArgs : SystemTransportArgs :=
  { AuthPrivateKey := ""
    AuthStrictKey := false
    SSHConfigFile := ""
    SSHKnownHostsFile := "" }

/-- C2: on host "10.0.0.1", port 22, socket timeout 5s, idle timeout
30s, no private key, username "admin", strict checking disabled, no ssh
config file and an empty initial vector, `buildOpenCmd` produces exactly
the listed argument vector, in order. -/
theorem buildOpenCmd_deterministic :
    buildOpenCmd sampleBase sampleSystemArgs [] =
      ["10.0.0.1", "-p", "22", "-o", "ConnectTimeout=5",
       "-o", "ServerAliveInterval=30", "-l", "admin",
       "-o", "StrictHostKeyChecking=no", "-o", "UserKnownHostsFile=/dev/null",
       "-F", "/dev/null"] := by
  decide

/-- C1: the timeout guard returns exactly one of the two outcomes: the
worker's payload and error unwrapped (always, when its result is
delivered before the timer, and in particular whenever it is ready
strictly within the duration), or the empty length-0 payload with the
transport-timeout error; in the timeout case the worker's output is
discarded — the returned value does not depend on the worker at all. -/
theorem transportTimeout_exactly_one (d t : Int) (tie : Bool)
    (f : Unit → transportResult) :
    (transportTimeout d t tie f = ((f ()).result, (f ()).error) ∨
      transportTimeout d t tie f = (some [], some GoError.ErrTransportTimeout)) ∧
    (0 ≤ t → t < d → transportTimeout d t tie f = ((f ()).result, (f ()).error)) ∧
    (workerWins d t tie = true →
      transportTimeout d t tie f = ((f ()).result, (f ()).error)) ∧
    (workerWins d t tie = false →
      transportTimeout d t tie f = (some [], some GoError.ErrTransportTimeout) ∧
      ∀ g : Unit → transportResult,
        transportTimeout d t tie g = transportTimeout d t tie f) := by
  have hworker : ∀ g : Unit → transportResult, workerWins d t tie = true →
      transportTimeout d t tie g = ((g ()).result, (g ()).error) := by
    intro g hg
    simp [transportTimeout, hg]
  have htimeout : ∀ g : Unit → transportResult, workerWins d t tie = false →
      transportTimeout d t tie g = (some [], some GoError.ErrTransportTimeout) := by
    intro g hg
    simp [transportTimeout, hg]
  refine ⟨?_, ?_, fun h => hworker f h, fun h => ⟨htimeout f h, fun g => ?_⟩⟩
  · cases h : workerWins d t tie
    · exact Or.inr (htimeout f h)
    · exact Or.inl (hworker f h)
  · intro ht htd
    apply hworker f
    have hd : max d 0 = d := max_eq_left (le_of_lt (lt_of_le_of_lt ht htd))
    simp [workerWins, hd]
    exact Or.inl htd
  · rw [htimeout g h, htimeout f h]

/-- Witness for C1 at duration 5, worker ready at time 1. -/
theorem transportTimeout_exactly_one_witness :
    transportTimeout 5 1 false (fun _ => ⟨some [7], none⟩) = (some [7], none) :=
  (transportTimeout_exactly_one 5 1 false
    (fun _ => ⟨some [7], none⟩)).2.1 (by decide) (by decide)

/-- C7 counterexample: with duration 0 and a worker whose result is
ready immediately, both select branches are ready at instant 0 and the
race can pick the worker branch: the guard returns the worker's payload,
not the timeout error, so a zero/negative duration does not reliably
report timeout when the worker completes immediately. -/
theorem transportTimeout_zero_duration_counterexample :
    (0 : Int) ≤ 0 ∧
    transportTimeout 0 0 true (fun _ => ⟨some [1], none⟩) ≠
      (some [], some GoError.ErrTransportTimeout) := by
  decide

/-- C7 amended: with a zero or negative duration the timer is already
expired, so the guard returns the empty payload and the timeout error
whenever the worker takes any positive amount of time; only a worker
ready at the very same instant still races the expired timer, and then
either outcome is possible. -/
theorem transportTimeout_nonpositive_duration (d t : Int) (tie : Bool)
    (f : Unit → transportResult) (hd : d ≤ 0) (ht : 0 < t) :
    transportTimeout d t tie f = (some [], some GoError.ErrTransportTimeout) := by
  have hmax : max d 0 = 0 := max_eq_right hd
  have h1 : ¬ (t < (0 : Int)) := by omega
  have h2 : ¬ (t = (0 : Int)) := by omega
  have hw : workerWins d t tie = false := by
    simp [workerWins, hmax, h1, h2]
  simp [transportTimeout, hw]

/-- Witness for the amended C7 at duration -1, worker ready at time 1. -/
theorem transportTimeout_nonpositive_duration_witness :
    transportTimeout (-1) 1 true (fun _ => ⟨some [1], none⟩) =
      (some [], some GoError.ErrTransportTimeout) :=
  transportTimeout_nonpositive_duration (-1) 1 true
    (fun _ => ⟨some [1], none⟩) (by decide) (by decide)

/-- C3: IsAlive is false on a freshly constructed System (before any
Open), true immediately after an Open or OpenNetconf call that returned
a nil error, false immediately after Close regardless of Close's own
error, and IsAlive is a pure function of the state whose value is
exactly the presence of the session handle fileObj. -/
theorem isAlive_lifecycle :
    (∀ b s cmd e, (mkSystem b s cmd e).IsAlive = false) ∧
    (∀ (t : System) (sr : Except GoError Nat),
      (System.Open t sr).2.2 = none → (System.Open t sr).1.IsAlive = true) ∧
    (∀ (t : System) (sr : Except GoError Nat),
      (System.OpenNetconf t sr).2.2 = none →
        (System.OpenNetconf t sr).1.IsAlive = true) ∧
    (∀ (t : System) (r : Option GoError),
      (System.Close t r).1.IsAlive = false) ∧
    (∀ t : System, t.IsAlive = t.fileObj.isSome) := by
  refine ⟨fun b s cmd e => rfl, ?_, ?_, fun t r => rfl, fun t => rfl⟩
  · intro t sr h
    cases sr with
    | error e => simp [System.Open] at h
    | ok hh => simp [System.Open, System.IsAlive]
  · intro t sr h
    cases sr with
    | error e => simp [System.OpenNetconf] at h
    | ok hh => simp [System.OpenNetconf, System.IsAlive]

/-- Witness for C3's hypothesis-bearing parts: successful Open and
OpenNetconf calls on a fresh instance leave it alive. -/
theorem isAlive_lifecycle_witness :
    (System.Open (mkSystem sampleBase sampleSystemArgs none "")
        (Except.ok 3)).1.IsAlive = true ∧
    (System.OpenNetconf (mkSystem sampleBase sampleSystemArgs none "")
        (Except.ok 4)).1.IsAlive = true :=
  ⟨isAlive_lifecycle.2.1 (mkSystem sampleBase sampleSystemArgs none "")
      (Except.ok 3) rfl,
   isAlive_lifecycle.2.2.1 (mkSystem sampleBase sampleSystemArgs none "")
      (Except.ok 4) rfl⟩

/-- C4: whenever the underlying stream read fails (end-of-stream
included) and the worker's result is the one the guard delivers, Read
and ReadN surface a nil payload and the single sentinel
ErrTransportFailure — never the raw underlying error. -/
theorem read_error_normalized (t : System) (n : Nat) (t' : Int) (tie : Bool)
    (e : GoError)
    (hw : workerWins t.BaseTransportArgs.TimeoutTransport t' tie = true) :
    System.Read t t' tie (ReadOutcome.err e) =
      (none, some GoError.ErrTransportFailure) ∧
    System.ReadN t n t' tie (ReadOutcome.err e) =
      (none, some GoError.ErrTransportFailure) := by
  constructor <;>
    simp [System.Read, System.ReadN, transportTimeout, hw, System.read]

/-- Witness for C4: an end-of-stream on the sample instance surfaces
the sentinel transport-failure error. -/
theorem read_error_normalized_witness :
    System.Read (mkSystem sampleBase sampleSystemArgs none "") 1 false
        (ReadOutcome.err GoError.eof) =
      (none, some GoError.ErrTransportFailure) :=
  (read_error_normalized (mkSystem sampleBase sampleSystemArgs none "")
    0 1 false GoError.eof (by decide)).1

/-- C8: when the argument vector is already non-nil, Open leaves it
unchanged and spawns with exactly that vector; the vector is built
inside Open only when it is nil. -/
theorem open_builds_cmd_only_when_nil (t : System) (sr : Except GoError Nat) :
    (∀ v, t.OpenCmd = some v →
      (System.Open t sr).1.OpenCmd = some v ∧
      (System.Open t sr).2.1.args = v) ∧
    (t.OpenCmd = none →
      (System.Open t sr).1.OpenCmd =
        some (buildOpenCmd t.BaseTransportArgs t.SystemTransportArgs []) ∧
      (System.Open t sr).2.1.args =
        buildOpenCmd t.BaseTransportArgs t.SystemTransportArgs []) := by
  constructor
  · intro v h
    cases sr <;> simp [System.Open, h] <;> split_ifs <;> simp [h]
  · intro h
    cases sr <;> simp [System.Open, h] <;> split_ifs <;> simp [h]

/-- Witness for C8: a preset one-token vector survives Open unchanged,
and a nil vector is built. -/
theorem open_builds_cmd_only_when_nil_witness :
    (System.Open (mkSystem sampleBase sampleSystemArgs (some ["x"]) "")
        (Except.ok 1)).1.OpenCmd = some ["x"] ∧
    (System.Open (mkSystem sampleBase sampleSystemArgs none "")
        (Except.ok 1)).1.OpenCmd =
      some (buildOpenCmd sampleBase sampleSystemArgs []) :=
  ⟨((open_builds_cmd_only_when_nil
      (mkSystem sampleBase sampleSystemArgs (some ["x"]) "")
      (Except.ok 1)).1 ["x"] rfl).1,
   ((open_builds_cmd_only_when_nil
      (mkSystem sampleBase sampleSystemArgs none "")
      (Except.ok 1)).2 rfl).1⟩

/-- C9: a successful read delivered by the guard returns the whole
allocated buffer: ReadN's payload for a request of n bytes has length
exactly n no matter how few bytes the stream produced, every position
beyond the bytes actually read holds a zero byte, and Read behaves the
same at the default size 65535. -/
theorem read_success_full_buffer (t : System) (n : Nat) (t' : Int) (tie : Bool)
    (data : List Nat)
    (hw : workerWins t.BaseTransportArgs.TimeoutTransport t' tie = true)
    (hlen : data.length ≤ n) :
    System.ReadN t n t' tie (ReadOutcome.ok data) =
      (some (fillBuffer n data), none) ∧
    (fillBuffer n data).length = n ∧
    (fillBuffer n data).drop data.length = List.replicate (n - data.length) 0 ∧
    (data.length ≤ ReadSize →
      System.Read t t' tie (ReadOutcome.ok data) =
        (some (fillBuffer ReadSize data), none) ∧
      (fillBuffer ReadSize data).length = ReadSize) := by
  have hfill : ∀ m : Nat, data.length ≤ m → (fillBuffer m data).length = m := by
    intro m hm
    simp [fillBuffer]
    omega
  refine ⟨?_, hfill n hlen, ?_, fun hlen2 => ⟨?_, hfill ReadSize hlen2⟩⟩
  · simp [System.ReadN, transportTimeout, hw, System.read]
  · rw [fillBuffer, List.take_of_length_le hlen, List.drop_left]
  · simp [System.Read, transportTimeout, hw, System.read]

/-- Witness for C9: requesting 3 bytes when the stream produced one byte
yields the full 3-byte buffer. -/
theorem read_success_full_buffer_witness :
    System.ReadN (mkSystem sampleBase sampleSystemArgs none "") 3 1 false
        (ReadOutcome.ok [9]) = (some (fillBuffer 3 [9]), none) ∧
    (fillBuffer 3 [9]).length = 3 :=
  ⟨(read_success_full_buffer (mkSystem sampleBase sampleSystemArgs none "")
      3 1 false [9] (by decide) (by decide)).1,
   (read_success_full_buffer (mkSystem sampleBase sampleSystemArgs none "")
      3 1 false [9] (by decide) (by decide)).2.1⟩

/-- C10: when the pty spawn fails, Open and OpenNetconf leave the
session handle field unmodified — IsAlive reports the same value as
before the call — and return the spawn error unchanged. -/
theorem open_spawn_failure_preserves_handle (t : System) (e : GoError) :
    (System.Open t (Except.error e)).1.fileObj = t.fileObj ∧
    (System.Open t (Except.error e)).2.2 = some e ∧
    (System.Open t (Except.error e)).1.IsAlive = t.IsAlive ∧
    (System.OpenNetconf t (Except.error e)).1.fileObj = t.fileObj ∧
    (System.OpenNetconf t (Except.error e)).2.2 = some e ∧
    (System.OpenNetconf t (Except.error e)).1.IsAlive = t.IsAlive := by
  simp [System.Open, System.OpenNetconf, System.IsAlive]
  split_ifs <;> simp

/-- `buildOpenCmd` only ever appends to the vector it is given: building
on top of an existing vector prefixes that vector to a fresh build. -/
theorem buildOpenCmd_append (b : BaseTransportArgs) (s : SystemTransportArgs)
    (cmd0 : List String) :
    buildOpenCmd b s cmd0 = cmd0 ++ buildOpenCmd b s [] := by
  simp only [buildOpenCmd]
  split_ifs <;> simp

/-- C5 counterexample: on an instance whose vector already holds a
leftover token, OpenNetconf does not produce a fresh build followed by
the trailing tokens — the leftover vector is kept as a prefix, not
discarded. -/
theorem openNetconf_rebuild_counterexample :
    (System.OpenNetconf
        (mkSystem sampleBase sampleSystemArgs (some ["leftover"]) "")
        (Except.ok 1)).1.OpenCmd ≠
      some (buildOpenCmd sampleBase sampleSystemArgs [] ++
        ["-tt", "-s", "netconf"]) := by
  decide

/-- C5 amended: OpenNetconf appends a fresh Command Builder output plus
the trailing "-tt" "-s" "netconf" tokens onto whatever argument vector
is already present (it does not discard it); only when the vector starts
nil does the result equal a fresh build followed by the trailing tokens,
and the spawn uses the vector so obtained. -/
theorem openNetconf_appends_cmd (t : System) (sr : Except GoError Nat) :
    (System.OpenNetconf t sr).1.OpenCmd =
      some (t.OpenCmd.getD [] ++
        buildOpenCmd t.BaseTransportArgs t.SystemTransportArgs [] ++
        ["-tt", "-s", "netconf"]) ∧
    (System.OpenNetconf t sr).2.1.args =
      t.OpenCmd.getD [] ++
        buildOpenCmd t.BaseTransportArgs t.SystemTransportArgs [] ++
        ["-tt", "-s", "netconf"] ∧
    (t.OpenCmd = none →
      (System.OpenNetconf t sr).1.OpenCmd =
        some (buildOpenCmd t.BaseTransportArgs t.SystemTransportArgs [] ++
          ["-tt", "-s", "netconf"])) := by
  have hb := buildOpenCmd_append t.BaseTransportArgs t.SystemTransportArgs
    (t.OpenCmd.getD [])
  refine ⟨?_, ?_, fun h => ?_⟩
  · cases sr <;> simp [System.OpenNetconf, hb]
  · cases sr <;> simp [System.OpenNetconf, hb]
  · cases sr <;> simp [System.OpenNetconf, h]

/-- Witness for the hypothesis-bearing part of amended C5: a nil vector
yields exactly a fresh build plus the trailing tokens. -/
theorem openNetconf_appends_cmd_witness :
    (System.OpenNetconf (mkSystem sampleBase sampleSystemArgs none "")
        (Except.ok 1)).1.OpenCmd =
      some (buildOpenCmd sampleBase sampleSystemArgs [] ++
        ["-tt", "-s", "netconf"]) :=
  (openNetconf_appends_cmd (mkSystem sampleBase sampleSystemArgs none "")
    (Except.ok 1)).2.2 rfl

/-- C6 counterexample: with ExecCmd set to "docker", OpenNetconf still
spawns the program "ssh", not the configured ExecCmd — the override is
honored by Open only. -/
theorem openNetconf_execCmd_counterexample :
    (mkSystem sampleBase sampleSystemArgs none "docker").ExecCmd = "docker" ∧
    (System.OpenNetconf (mkSystem sampleBase sampleSystemArgs none "docker")
        (Except.ok 1)).2.1.prog ≠
      (mkSystem sampleBase sampleSystemArgs none "docker").ExecCmd := by
  decide

/-- C6 amended: Open spawns the caller-configured ExecCmd when it is set
and "ssh" when it is not; OpenNetconf always spawns "ssh", ignoring any
configured ExecCmd. -/
theorem spawn_program_selection (t : System) (sr : Except GoError Nat) :
    (System.Open t sr).2.1.prog =
      (if t.ExecCmd = "" then "ssh" else t.ExecCmd) ∧
    (System.OpenNetconf t sr).2.1.prog = "ssh" := by
  cases sr <;> simp [System.Open, System.OpenNetconf] <;> split_ifs <;> simp

end Scrapligo
